import Mathlib

/-!
Verification of the zeroizing storage adapter `ZArrayStorage` from
`src/lib.rs`: a decorator over the coca storage-capability contract
(`Storage<ArrayLayout<Z>>`) that forwards every capability operation to the
wrapped backend and zeroizes the buffer of the backend on drop and on demand.

The embedding has two levels. Delegation facts are stated over an abstract
backend type `σ` equipped with the operations of the storage contract
(`StorageOps`). Erasure facts are stated over a concrete byte-level backend
model (`BackendState`) whose `bytes` list is the content of the allocation
that `get_mut_ptr` points at and whose `cap` is the element count returned by
`capacity()`.
-/

namespace CocaZero

/-- The coca `CapacityError`, the single error kind of the storage contract;
it carries no data. -/
structure CapacityError where
  deriving DecidableEq

/-- The coca storage-capability contract `Storage<ArrayLayout<Z>>` over a
backend state type `σ`: pointer accessors (addresses modelled as naturals),
the capacity query (an element count per the contract), fallible growth, and
the minimum-representable-capacity constant. Every method takes `&self`, so
each is modelled as a pure function of the receiver. -/
structure StorageOps (σ : Type) where
  MIN_REPRESENTABLE : Nat
  get_ptr : σ → Nat
  get_mut_ptr : σ → Nat
  capacity : σ → Nat
  try_grow : σ → Option Nat → Except CapacityError σ

/-- The adapter `ZArrayStorage<Z, S>(S, PhantomData<Z>)`: it holds exactly
one wrapped backend handle; the phantom element-type marker is compile-time
only and has no runtime content, so it is omitted. -/
structure ZArrayStorage (σ : Type) where
  backend : σ
  deriving DecidableEq

/-- Adapter constant from `impl Storage for ZArrayStorage`:
`MIN_REPRESENTABLE = S::MIN_REPRESENTABLE`. -/
def ZArrayStorage.MIN_REPRESENTABLE {σ : Type} (ops : StorageOps σ) : Nat :=
  ops.MIN_REPRESENTABLE

/-- Adapter `fn get_ptr(&self) -> *const u8`: returns `self.0.get_ptr()`. -/
def ZArrayStorage.get_ptr {σ : Type} (ops : StorageOps σ) (s : ZArrayStorage σ) : Nat :=
  ops.get_ptr s.backend

/-- Adapter `fn get_mut_ptr(&mut self) -> *mut u8`: returns
`self.0.get_mut_ptr()`; the body only reads the receiver. -/
def ZArrayStorage.get_mut_ptr {σ : Type} (ops : StorageOps σ) (s : ZArrayStorage σ) : Nat :=
  ops.get_mut_ptr s.backend

/-- Adapter `fn capacity(&self) -> usize`: returns `self.0.capacity()`. -/
def ZArrayStorage.capacity {σ : Type} (ops : StorageOps σ) (s : ZArrayStorage σ) : Nat :=
  ops.capacity s.backend

/-- Adapter `fn try_grow(&self, min_capacity)`: the body is
`Ok(Self(self.0.try_grow(min_capacity)?, PhantomData))` — the `?` operator
returns the backend error unchanged, otherwise the new backend handle is
wrapped in a fresh adapter. -/
def ZArrayStorage.try_grow {σ : Type} (ops : StorageOps σ) (s : ZArrayStorage σ)
    (min_capacity : Option Nat) : Except CapacityError (ZArrayStorage σ) :=
  match ops.try_grow s.backend min_capacity with
  | .ok b => .ok ⟨b⟩
  | .error e => .error e

/-- Adapter `OwnedStorage::try_with_capacity`: the body is
`Ok(S::try_with_capacity(min_capacity)?.into())`, where `.into()` is the
`From<S>` impl wrapping the backend unchanged. The backend operation
`S::try_with_capacity` is passed as the function `twc`. -/
def ZArrayStorage.try_with_capacity {σ : Type} (twc : Nat → Except CapacityError σ)
    (min_capacity : Nat) : Except CapacityError (ZArrayStorage σ) :=
  match twc min_capacity with
  | .ok b => .ok ⟨b⟩
  | .error e => .error e

/-- Adapter `DefaultStorage` constant: `UNINIT = Self(S::UNINIT, PhantomData)`,
as a function of the `UNINIT` value of the backend. -/
def ZArrayStorage.UNINIT {σ : Type} (backendUninit : σ) : ZArrayStorage σ :=
  ⟨backendUninit⟩

/-- A concrete byte-level model of one wrapped backend: `bytes` is the byte
content of the allocation that `get_mut_ptr` points at (its length is
`capacity * size_of::<Z>()` for an adapter over elements of that size), and
`cap` is the value returned by `capacity()` — an element count, per the
storage contract. -/
structure BackendState where
  bytes : List Nat
  cap : Nat
  deriving DecidableEq

/-- Elementwise zeroization of the byte slice built by `zeroize`:
`slice::from_raw_parts_mut(self.0.get_mut_ptr(), self.0.capacity())` is a
`&mut [u8]` of length `capacity()` starting at the allocation base, and
`.zeroize()` writes 0 to each of its bytes. `zeroizeRange n l` zeroes the
first `n` entries of `l`. -/
def zeroizeRange : Nat → List Nat → List Nat
  | _, [] => []
  | 0, l => l
  | n + 1, _ :: l => 0 :: zeroizeRange n l

/-- The erase operation `Zeroize for ZArrayStorage::zeroize`, at the byte
level: overwrites the first `self.0.capacity()` bytes of the allocation with
zero. Note the slice length is `capacity()` — the element count — used
directly as the byte count of the slice. -/
def zeroizeModel (s : BackendState) : BackendState :=
  { s with bytes := zeroizeRange s.cap s.bytes }

/-- The destructor `Drop for ZArrayStorage`: its body is exactly one call,
`self.zeroize()`. -/
def dropModel (s : BackendState) : BackendState :=
  zeroizeModel s

/-- Modelled from the words of the spec, for comparison with `zeroizeModel`:
the erase operation computes the full byte range from `get_mut_ptr()` to
`get_mut_ptr() + capacity() * element_size` and overwrites every byte in
that range with zero. -/
def zeroizeSpecErase (elemSize : Nat) (s : BackendState) : BackendState :=
  { s with bytes := zeroizeRange (s.cap * elemSize) s.bytes }

/-- The erase operation with the safety requirement of
`slice::from_raw_parts_mut` made explicit: forming the slice requires its
`capacity()` bytes to lie inside the exclusively owned allocation; within
that precondition the body of `zeroize` has no failing branch, so the
checked operation returns the zeroized state. -/
def zeroizeChecked (s : BackendState) : Option BackendState :=
  if s.cap ≤ s.bytes.length then some (zeroizeModel s) else none

/-- Modelled from the spec: the non-growable coca backends (InlineStorage,
SliceStorage, ArenaStorage, fixed AllocStorage) are external to this
repository. Per the spec, requesting growth beyond their capacity always
fails with capacity-exceeded and leaves the existing contents unmodified,
while a request within the current capacity is satisfiable by the existing
allocation. -/
def fixedTryGrow (s : BackendState) (min_capacity : Option Nat) :
    Except CapacityError BackendState :=
  match min_capacity with
  | some n => if n ≤ s.cap then .ok s else .error ⟨⟩
  | none => .error ⟨⟩

/-- A call `r.try_grow(m)` through a `&self` receiver: the method body is a
pure function of the receiver (no interior mutability anywhere in the
storage types), so the call yields its result alongside the unchanged
receiver that the caller retains. -/
def tryGrowCall (g : BackendState → Option Nat → Except CapacityError BackendState)
    (s : BackendState) (m : Option Nat) :
    Except CapacityError BackendState × BackendState :=
  (g s m, s)

/-- The storage-capability operations of a concrete byte-level backend with
growth behaviour `g`: the data pointer is the allocation base address `a`,
the capacity is the `cap` field, and `mr` is the backend constant
`MIN_REPRESENTABLE`. -/
def byteOps (mr a : Nat)
    (g : BackendState → Option Nat → Except CapacityError BackendState) :
    StorageOps BackendState :=
  ⟨mr, fun _ => a, fun _ => a, BackendState.cap, g⟩

theorem zeroizeRange_length (n : Nat) (l : List Nat) :
    (zeroizeRange n l).length = l.length := by
  induction l generalizing n with
  | nil => cases n <;> rfl
  | cons b t ih =>
    cases n with
    | zero => rfl
    | succ m => simp [zeroizeRange, ih]

theorem zeroizeRange_getElem_lt (n : Nat) (l : List Nat) (i : Nat)
    (hn : i < n) (hl : i < l.length) : (zeroizeRange n l)[i]? = some 0 := by
  induction l generalizing n i with
  | nil => simp at hl
  | cons b t ih =>
    cases n with
    | zero => omega
    | succ m =>
      cases i with
      | zero => simp [zeroizeRange]
      | succ j =>
        have hj : j < m := by omega
        have hjl : j < t.length := by simpa using hl
        simp [zeroizeRange, ih m j hj hjl]

theorem zeroizeRange_getElem_ge (n : Nat) (l : List Nat) (i : Nat)
    (hn : n ≤ i) : (zeroizeRange n l)[i]? = l[i]? := by
  induction l generalizing n i with
  | nil => cases n <;> rfl
  | cons b t ih =>
    cases n with
    | zero => rfl
    | succ m =>
      cases i with
      | zero => omega
      | succ j => simp [zeroizeRange, ih m j (by omega)]

theorem zeroizeRange_idem (n : Nat) (l : List Nat) :
    zeroizeRange n (zeroizeRange n l) = zeroizeRange n l := by
  induction l generalizing n with
  | nil => cases n <;> rfl
  | cons b t ih =>
    cases n with
    | zero => rfl
    | succ m => simp [zeroizeRange, ih]

/-- C1: the claim states that erase overwrites the full byte range of length
`capacity() * element_size` with zero. The code instead passes the element
count `capacity()` directly as the byte length of the zeroized slice. For an
element type of size 2 and a backend of capacity 2 elements (allocation of 4
bytes, all holding 1), erase zeroes only the first 2 bytes, leaving bytes 2
and 3 nonzero, whereas the erase described by the spec zeroes all 4 bytes:
the two operations disagree, and secret bytes survive the erase of the code. -/
theorem zeroize_misses_tail_for_multibyte_elements :
    (zeroizeModel ⟨[1, 1, 1, 1], 2⟩).bytes = [0, 0, 1, 1] ∧
    (zeroizeSpecErase 2 ⟨[1, 1, 1, 1], 2⟩).bytes = [0, 0, 0, 0] ∧
    (zeroizeModel ⟨[1, 1, 1, 1], 2⟩).bytes ≠
      (zeroizeSpecErase 2 ⟨[1, 1, 1, 1], 2⟩).bytes := by
  refine ⟨rfl, rfl, ?_⟩
  decide

/-- C2: destruction performs exactly one erase pass (the destructor body is
a single `zeroize` call), erase is idempotent with no intervening use, and
an explicit erase followed by drop leaves every byte of the erased range
zero with no failure. -/
theorem drop_single_erase_and_idempotent (s : BackendState) :
    dropModel s = zeroizeModel s ∧
    zeroizeModel (zeroizeModel s) = zeroizeModel s ∧
    (∀ i, i < s.cap → i < s.bytes.length →
      (dropModel (zeroizeModel s)).bytes[i]? = some 0) := by
  refine ⟨rfl, ?_, ?_⟩
  · simp [zeroizeModel, zeroizeRange_idem]
  · intro i hc hl
    have hl2 : i < (zeroizeRange s.cap s.bytes).length := by
      rw [zeroizeRange_length]; exact hl
    simpa [dropModel, zeroizeModel] using
      zeroizeRange_getElem_lt s.cap (zeroizeRange s.cap s.bytes) i hc hl2

theorem drop_single_erase_and_idempotent_witness :
    (dropModel (zeroizeModel ⟨[7, 8, 9], 3⟩)).bytes[1]? = some 0 :=
  (drop_single_erase_and_idempotent ⟨[7, 8, 9], 3⟩).2.2 1 (by decide) (by decide)

/-- C3: pass-through is the identity — each capability accessor of the
adapter (`get_ptr`, `get_mut_ptr`, `capacity`) returns exactly the value of
the same accessor of the unwrapped backend. Each such call is a pure
function of the receiver, so the identity holds across any sequence of
those calls made before any growth or destruction. -/
theorem pass_through_identity {σ : Type} (ops : StorageOps σ) (s : ZArrayStorage σ) :
    ZArrayStorage.get_ptr ops s = ops.get_ptr s.backend ∧
    ZArrayStorage.get_mut_ptr ops s = ops.get_mut_ptr s.backend ∧
    ZArrayStorage.capacity ops s = ops.capacity s.backend :=
  ⟨rfl, rfl, rfl⟩

/-- C4: `try_grow` delegates to the growth operation of the backend — the
adapter result is exactly the backend result with the ok value wrapped in a
fresh adapter instance and any error surfaced unchanged, so the adapter
returns ok exactly when the backend does and introduces no new error kinds. -/
theorem try_grow_delegates {σ : Type} (ops : StorageOps σ) (s : ZArrayStorage σ)
    (m : Option Nat) :
    ZArrayStorage.try_grow ops s m =
      Except.map ZArrayStorage.mk (ops.try_grow s.backend m) := by
  unfold ZArrayStorage.try_grow
  cases ops.try_grow s.backend m <;> rfl

/-- C5: a failed growth is atomic and non-fatal — the capacity error of the
backend is surfaced as-is, the receiver the caller retains after the `&self`
call is the old backend unchanged (contents, pointer target, and capacity
untouched), and dropping that old adapter still runs its erase pass, zeroing
the capacity-byte range of the allocation. -/
theorem try_grow_failure_atomic
    (g : BackendState → Option Nat → Except CapacityError BackendState)
    (s : BackendState) (m : Option Nat) (e : CapacityError)
    (h : g s m = .error e) :
    (tryGrowCall g s m).1 = .error e ∧
    (tryGrowCall g s m).2 = s ∧
    (∀ i, i < s.cap → i < s.bytes.length →
      (dropModel (tryGrowCall g s m).2).bytes[i]? = some 0) := by
  refine ⟨h, rfl, ?_⟩
  intro i hc hl
  simpa [tryGrowCall, dropModel, zeroizeModel] using
    zeroizeRange_getElem_lt s.cap s.bytes i hc hl

theorem try_grow_failure_atomic_witness :
    (tryGrowCall (fun _ _ => .error .mk) ⟨[1, 2, 3], 3⟩ (some 4)).2 =
      (⟨[1, 2, 3], 3⟩ : BackendState) :=
  (try_grow_failure_atomic (fun _ _ => .error .mk) ⟨[1, 2, 3], 3⟩ (some 4)
    .mk rfl).2.1

/-- C6: on a non-growable backend, a growth request beyond the capacity
always returns the capacity-exceeded error — directly at the backend and
through the adapter delegation — and the `&self` call leaves the existing
contents of the buffer unmodified, so a full fixed-capacity backend reports
failure rather than truncating or crashing. -/
theorem fixed_backend_capacity_exceeded (mr a : Nat) (s : BackendState)
    (n : Nat) (h : s.cap < n) :
    fixedTryGrow s (some n) = .error ⟨⟩ ∧
    ZArrayStorage.try_grow (byteOps mr a fixedTryGrow) ⟨s⟩ (some n) = .error ⟨⟩ ∧
    (tryGrowCall fixedTryGrow s (some n)).2.bytes = s.bytes := by
  have hfail : fixedTryGrow s (some n) = .error ⟨⟩ := by
    simp only [fixedTryGrow]
    rw [if_neg (by omega)]
  refine ⟨hfail, ?_, rfl⟩
  simp only [ZArrayStorage.try_grow, byteOps]
  rw [hfail]

theorem fixed_backend_capacity_exceeded_witness :
    fixedTryGrow ⟨[1, 2, 3], 3⟩ (some 4) = .error ⟨⟩ :=
  (fixed_backend_capacity_exceeded 1 0 ⟨[1, 2, 3], 3⟩ 4 (by decide)).1

/-- C7: erase is total and error-free — under the exclusive-ownership
precondition (the allocation spans `capacity * element_size` bytes for an
element type at least one byte wide), the zeroized slice lies inside the
owned allocation, the checked erase never reaches a failing branch, and it
returns the zeroized state regardless of whether any element was ever
initialized (the buffer is treated as opaque bytes). -/
theorem zeroize_total (s : BackendState) (elemSize : Nat) (h1 : 1 ≤ elemSize)
    (h2 : s.bytes.length = s.cap * elemSize) :
    zeroizeChecked s = some (zeroizeModel s) := by
  have hle : s.cap ≤ s.bytes.length := by
    rw [h2]
    calc s.cap = s.cap * 1 := (Nat.mul_one _).symm
      _ ≤ s.cap * elemSize := Nat.mul_le_mul_left _ h1
  simp [zeroizeChecked, hle]

theorem zeroize_total_witness :
    zeroizeChecked ⟨[4, 5, 6], 3⟩ = some (zeroizeModel ⟨[4, 5, 6], 3⟩) :=
  zeroize_total ⟨[4, 5, 6], 3⟩ 1 (by decide) (by decide)

/-- C8: at the byte level, `zeroize` writes zero to exactly the first
`capacity()` bytes of the allocation — the element count used as a byte
count — and every byte at offset `capacity()` or beyond is left unchanged;
the allocation length is unchanged. -/
theorem zeroize_exact_capacity_bytes (s : BackendState) :
    (zeroizeModel s).bytes.length = s.bytes.length ∧
    (∀ i, i < s.cap → i < s.bytes.length →
      (zeroizeModel s).bytes[i]? = some 0) ∧
    (∀ i, s.cap ≤ i → (zeroizeModel s).bytes[i]? = s.bytes[i]?) := by
  refine ⟨zeroizeRange_length s.cap s.bytes, ?_, ?_⟩
  · intro i hc hl
    exact zeroizeRange_getElem_lt s.cap s.bytes i hc hl
  · intro i hge
    exact zeroizeRange_getElem_ge s.cap s.bytes i hge

theorem zeroize_exact_capacity_bytes_witness :
    (zeroizeModel ⟨[1, 1, 1, 1], 2⟩).bytes[3]? = some 1 := by
  have h := (zeroize_exact_capacity_bytes ⟨[1, 1, 1, 1], 2⟩).2.2 3 (by decide)
  simpa using h

/-- C9: `try_with_capacity` delegates — the adapter result is exactly the
result of the backend constructor, with the fresh backend wrapped unchanged
(via the From impl) on success and the CapacityError returned unchanged on
failure. -/
theorem try_with_capacity_delegates {σ : Type} (twc : Nat → Except CapacityError σ)
    (n : Nat) :
    ZArrayStorage.try_with_capacity twc n = Except.map ZArrayStorage.mk (twc n) := by
  unfold ZArrayStorage.try_with_capacity
  cases twc n <;> rfl

/-- C10: the adapter constant `MIN_REPRESENTABLE` equals the constant of the
wrapped backend, and the adapter `UNINIT` value wraps the `UNINIT` value of
the backend unchanged. -/
theorem constants_delegate {σ : Type} (ops : StorageOps σ) (backendUninit : σ) :
    ZArrayStorage.MIN_REPRESENTABLE ops = ops.MIN_REPRESENTABLE ∧
    (ZArrayStorage.UNINIT backendUninit).backend = backendUninit :=
  ⟨rfl, rfl⟩

end CocaZero
